import Mathlib

/-!
# SimpleWS: the per-connection lifecycle of `main.go`

A shallow embedding of `wsHandler`, `handleWebSocket` and
`sendInactivityNotification`.  Goroutines are modelled as program counters
inside a per-session record; one statement of one goroutine is one step of the
machine, and the environment (clock readings, frames arriving on the
connection, the outcome of writes and of the handshake) is supplied with each
step.
-/

namespace SimpleWS

set_option maxRecDepth 20000

/-! ## `strconv.Atoi` (Go standard library, 64-bit `int`) -/

/-- The two error kinds of `strconv`: `ErrSyntax` and `ErrRange`. -/
inductive NumError where
  | badDigits
  | outOfRange
deriving DecidableEq

/-- A byte in `'0'..'9'`.  Go tests `ch - '0' > 9` on bytes; every byte of a
non-ASCII character is at least `0x80` and fails that test, as the character
does here. -/
def isDigit (ch : Char) : Bool := 48 ≤ ch.toNat && ch.toNat ≤ 57

/-- The digit loop of the fast path of `Atoi`: `n = n*10 + int(ch - '0')`,
leaving with a syntax error at the first non-digit. -/
def atoiDigits : List Char → Nat → Option Nat
  | [], n => some n
  | ch :: rest, n =>
    if isDigit ch then atoiDigits rest (n * 10 + (ch.toNat - 48)) else none

/-- The loop of `strconv.ParseUint(s, 10, 64)`: `cutoff = maxUint64/10 + 1`,
`maxVal = 1<<64 - 1`. -/
def parseUintLoop : List Char → Nat → Except NumError Nat
  | [], n => .ok n
  | c :: rest, n =>
    if isDigit c then
      if n ≥ 1844674407370955162 then .error .outOfRange
      else
        let n1 := n * 10 + (c.toNat - 48)
        if n1 > 18446744073709551615 then .error .outOfRange
        else parseUintLoop rest n1
    else .error .badDigits

/-- `strconv.ParseUint(s, 10, 64)`, error kind only on failure. -/
def ParseUint (s : List Char) : Except NumError Nat :=
  match s with
  | [] => .error .badDigits
  | _ => parseUintLoop s 0

/-- `strconv.ParseInt(s, 10, 0)` with `IntSize = 64`. -/
def ParseInt (s : List Char) : Except NumError Int :=
  match s with
  | [] => .error .badDigits
  | c :: rest =>
    let neg := c == '-'
    let body := if c == '+' ∨ c == '-' then rest else s
    match ParseUint body with
    | .error .badDigits => .error .badDigits
    | .error .outOfRange => .error .outOfRange
    | .ok un =>
      if !neg ∧ un ≥ 9223372036854775808 then .error .outOfRange
      else if neg ∧ un > 9223372036854775808 then .error .outOfRange
      else .ok (if neg then -(un : Int) else (un : Int))

/-- `strconv.Atoi`: the fast path for `0 < len(s) < 19`, `ParseInt` otherwise. -/
def Atoi (s : String) : Except NumError Int :=
  let sLen := s.utf8ByteSize
  if 0 < sLen ∧ sLen < 19 then
    match s.data with
    | [] => .error .badDigits
    | c :: rest =>
      let body := if c == '-' ∨ c == '+' then rest else c :: rest
      if body.length < 1 then .error .badDigits
      else
        match atoiDigits body 0 with
        | none => .error .badDigits
        | some n => .ok (if c == '-' then -(n : Int) else (n : Int))
  else ParseInt s.data

/-! ## Time and `time.Timer` -/

/-- Instants and durations in nanoseconds, the unit of `time.Duration`. -/
abbrev Time := Nat

/-- The constant `time.Second`. -/
def Second : Nat := 1000000000

/-- A `*time.Timer` as seen by the program: the instant at which the runtime
will send on `C` (none when stopped or already expired) and whether a value sits
unreceived in the one-slot channel `C`. -/
structure Timer where
  deadline : Option Time
  pending : Bool
deriving DecidableEq

/-- The call `time.NewTimer(d)` made at `now`. -/
def NewTimer (now d : Time) : Timer := { deadline := some (now + d), pending := false }

/-- What the runtime has done to the timer by `now`: an armed timer whose
deadline has passed has sent its value on `C`. -/
def Timer.observe (tm : Timer) (now : Time) : Timer :=
  match tm.deadline with
  | some dl => if dl ≤ now then { deadline := none, pending := true } else tm
  | none => tm

/-- Whether a receive from `C` can proceed at `now`. -/
def Timer.ready (tm : Timer) (now : Time) : Bool := (tm.observe now).pending

/-- The method `Timer.Reset(d)` called at `now`: re-arms the timer.  A value
already sent on `C` and not yet received stays there, as in the runtimes before
Go 1.23; from Go 1.23 on `Reset` discards it.  The two agree whenever the timer
has not expired unreceived at `now`. -/
def Timer.Reset (tm : Timer) (now d : Time) : Timer :=
  { deadline := some (now + d), pending := (tm.observe now).pending }

/-- The method `Timer.Stop()` called at `now`: disarms the timer; as for `Reset`, a
value already sent on `C` stays there. -/
def Timer.Stop (tm : Timer) (now : Time) : Timer :=
  { deadline := none, pending := (tm.observe now).pending }

/-- The receive `<-Timer.C` taken at `now`. -/
def Timer.receive (tm : Timer) (now : Time) : Timer :=
  { deadline := (tm.observe now).deadline, pending := false }

/-! ## Data model -/

/-- Address of a `Client` allocated by `wsHandler`; the connection returned by the
same `Upgrade` call carries the same number as its handle. -/
abbrev Ptr := Nat

/-- The struct `Client`.  `Closed` records whether the channel has been closed,
`Timer` is `none` for the nil pointer. -/
structure Client where
  ID : String
  Conn : Nat
  Closed : Bool
  LastActivity : Time
  Timer : Option Timer
deriving DecidableEq

/-- Lines written to standard output by the `fmt.Printf` calls. -/
inductive LogLine where
  | connected (id : String) (n : Int)
  | disconnected (id : String)
  | readError (id : String)
  | writeError (id : String)
  | notifyError (id : String)
deriving DecidableEq

/-- Observable effects, in program order. -/
inductive Event where
  | httpError (status : Nat) (body : String)
  | upgrade (ok : Bool)
  | print (l : LogLine)
  | connWrite (conn : Nat) (text : String)
  | connClose (conn : Nat)
deriving DecidableEq

/-- Whether the effect is a `Conn.WriteMessage` call. -/
def Event.isWrite : Event → Bool
  | .connWrite _ _ => true
  | _ => false

/-- Where the goroutine running `wsHandler` stands after line 70. -/
inductive WsPc where
  | spawnReader
  | spawnMonitor
  | newTimer
  | selecting
  | returned
deriving DecidableEq

/-- Where the goroutine running `handleWebSocket` stands; `m` is the frame read
at line 99 and not yet answered. -/
inductive HwPc where
  | unstarted
  | reading
  | touch (m : String)
  | reset (m : String)
  | respond (m : String)
  | exited
deriving DecidableEq

/-- Where the goroutine running `sendInactivityNotification` stands; `due` is the
expiry of the `time.After(2 * time.Second)` of the current `select`. -/
inductive MonPc where
  | unstarted
  | arming
  | waiting (due : Time)
  | exited
deriving DecidableEq

/-- One accepted connection: the `Client`, whether `Conn.Close` has been called
on its connection, and its three goroutines. -/
structure Session where
  client : Client
  connClosed : Bool
  ws : WsPc
  hw : HwPc
  mon : MonPc
deriving DecidableEq

/-- A run-time panic. -/
inductive Fault where
  | nilDeref
deriving DecidableEq

/-- The process: the global map `clients`, the allocated sessions, the effects so
far, and the panic that killed the process, if any. -/
structure State where
  clients : String → Option Ptr
  heap : List Session
  trace : List Event
  fault : Option Fault

/-- The process at start-up: `clients = make(map[string]*Client)`. -/
def State.init : State :=
  { clients := fun _ => none, heap := [], trace := [], fault := none }

/-- What one statement of one goroutine does: the new session record, the key
passed to `delete(clients, key)` if any, and the effects. -/
structure Effect where
  sess : Session
  unregister : Option String
  events : List Event
deriving DecidableEq

deriving instance DecidableEq for Except

/-- The outcome of `Conn.ReadMessage`: no frame yet, an error, or a frame. -/
inductive ReadResult where
  | blocked
  | failed
  | frame (m : String)
deriving DecidableEq

/-! ## `wsHandler` -/

/-- Lines 43 to 54 of `wsHandler`: the checks made on the query parameter
before the upgrade.  The error is the first argument of the `http.Error` call at
line 45 or 52, the value is `userIdNum`. -/
def wsHandler.validate (userId : String) : Except String Int :=
  if userId = "" then .error "Login number is required"
  else
    match Atoi userId with
    | .error _ => .error "Invalid user id"
    | .ok userIdNum =>
      if userIdNum < 1 ∨ userIdNum > 10 then .error "Invalid user id" else .ok userIdNum

/-- The session record right after line 69: the `Client` literal of lines 62 to
67 (no `Timer` field, hence nil) on the connection returned by `Upgrade`. -/
def Session.fresh (userId : String) (p : Ptr) (now : Time) : Session :=
  { client := { ID := userId, Conn := p, Closed := false, LastActivity := now, Timer := none }
    connClosed := false
    ws := .spawnReader
    hw := .unstarted
    mon := .unstarted }

/-- Lines 41 to 70 of `wsHandler`, run at `now` on a request whose query
parameter is `userId` and whose handshake succeeds iff `upgradeOk`: validation,
`upgrader.Upgrade`, allocation of the `Client`, `clients[userId] = client`.
`http.StatusBadRequest` is 400. -/
def wsHandler.register (s : State) (userId : String) (upgradeOk : Bool) (now : Time) : State :=
  match wsHandler.validate userId with
  | .error body => { s with trace := s.trace ++ [.httpError 400 body] }
  | .ok userIdNum =>
    if upgradeOk = false then
      { s with trace := s.trace ++
          [.upgrade false, .httpError 400 "Could not open WebSocket connection"] }
    else
      { s with
        clients := fun k => if k = userId then some s.heap.length else s.clients k
        heap := s.heap ++ [Session.fresh userId s.heap.length now]
        trace := s.trace ++ [.upgrade true, .print (.connected userId userIdNum)] }

/-- One statement of `wsHandler` after line 70, run at `now`.  At the `select`,
`preferTimer` is the choice the runtime makes when both cases are ready; the
deferred `client.Timer.Stop()` runs at either `return`. -/
def wsHandler.step (now : Time) (preferTimer : Bool) (x : Session) : Except Fault Effect :=
  match x.ws with
  | .spawnReader =>
    .ok { sess := { x with hw := .reading, ws := .spawnMonitor },
          unregister := none, events := [] }
  | .spawnMonitor =>
    .ok { sess := { x with mon := .arming, ws := .newTimer },
          unregister := none, events := [] }
  | .newTimer =>
    .ok { sess := { x with
                    client := { x.client with Timer := some (NewTimer now (10 * Second)) }
                    ws := .selecting },
          unregister := none, events := [] }
  | .selecting =>
    match x.client.Timer with
    | none => .error .nilDeref
    | some tm =>
      if tm.ready now = true ∧ (preferTimer = true ∨ x.client.Closed = false) then
        .ok { sess := { x with
                        client := { x.client with Timer := some ((tm.receive now).Stop now) }
                        connClosed := true
                        ws := .returned },
              unregister := none, events := [.connClose x.client.Conn] }
      else if x.client.Closed = true then
        .ok { sess := { x with
                        client := { x.client with Timer := some (tm.Stop now) }
                        ws := .returned },
              unregister := some x.client.ID,
              events := [.print (.disconnected x.client.ID)] }
      else .ok { sess := x, unregister := none, events := [] }
  | .returned => .ok { sess := x, unregister := none, events := [] }

/-! ## `handleWebSocket` -/

/-- The text built at line 108. -/
def handleWebSocket.response (id message : String) : String :=
  "Hi " ++ id ++ ", You just said: " ++ message

/-- One statement of `handleWebSocket`, run at `now`.  `input` is what
`ReadMessage` would return on an open connection, `writeOk` whether the peer
accepts a write; both calls fail once `Conn.Close` has been called.  Every
`return` runs the deferred `close(client.Closed)`. -/
def handleWebSocket.step (now : Time) (input : ReadResult) (writeOk : Bool) (x : Session) :
    Except Fault Effect :=
  match x.hw with
  | .unstarted => .ok { sess := x, unregister := none, events := [] }
  | .reading =>
    match (if x.connClosed = true then ReadResult.failed else input) with
    | .blocked => .ok { sess := x, unregister := none, events := [] }
    | .failed =>
      .ok { sess := { x with client := { x.client with Closed := true }, hw := .exited },
            unregister := none, events := [.print (.readError x.client.ID)] }
    | .frame m => .ok { sess := { x with hw := .touch m }, unregister := none, events := [] }
  | .touch m =>
    .ok { sess := { x with client := { x.client with LastActivity := now }, hw := .reset m },
          unregister := none, events := [] }
  | .reset m =>
    match x.client.Timer with
    | none => .error .nilDeref
    | some tm =>
      .ok { sess := { x with
                      client := { x.client with Timer := some (tm.Reset now (10 * Second)) }
                      hw := .respond m },
            unregister := none, events := [] }
  | .respond m =>
    if writeOk = true ∧ x.connClosed = false then
      .ok { sess := { x with hw := .reading }, unregister := none,
            events := [.connWrite x.client.Conn (handleWebSocket.response x.client.ID m)] }
    else
      .ok { sess := { x with client := { x.client with Closed := true }, hw := .exited },
            unregister := none,
            events := [.connWrite x.client.Conn (handleWebSocket.response x.client.ID m),
                       .print (.writeError x.client.ID)] }
  | .exited => .ok { sess := x, unregister := none, events := [] }

/-! ## `sendInactivityNotification` -/

/-- Rounding of `n / unit` to the nearest integer, ties to even. -/
def roundHalfEven (n unit : Nat) : Nat :=
  let q := n / unit
  let r := n % unit
  if 2 * r < unit then q
  else if unit < 2 * r then q + 1
  else if q % 2 = 0 then q else q + 1

/-- A finite `float64`, held exactly as `num / 2 ^ shift`.  Only the operations
of lines 122 to 124 are modelled; none of them overflows, underflows or yields a
negative zero on the values it meets. -/
structure F64 where
  num : Int
  shift : Nat
deriving DecidableEq

/-- The number `⌊log₂ n⌋` for `n ≥ 1`, by halving with `fuel` at hand. -/
def ilog2Fuel : Nat → Nat → Nat
  | 0, _ => 0
  | fuel + 1, n => if n < 2 then 0 else ilog2Fuel fuel (n / 2) + 1

/-- The number `⌊log₂ n⌋` for `n ≥ 1`. -/
def ilog2 (n : Nat) : Nat := ilog2Fuel n n

/-- The numerator of `(p / q) / 2 ^ e`. -/
def F64.scaledNum (p : Nat) (e : Int) : Nat := if e < 0 then p * 2 ^ (-e).toNat else p

/-- The denominator of `(p / q) / 2 ^ e`. -/
def F64.scaledDen (q : Nat) (e : Int) : Nat := if e < 0 then q else q * 2 ^ e.toNat

/-- IEEE 754 round-to-nearest, ties-to-even, of the positive rational `p / q`
(`q > 0`) to 53 significant bits: `e` is the exponent for which
`2 ^ 52 ≤ (p / q) / 2 ^ e < 2 ^ 53`, the significand is that quotient rounded. -/
def F64.round (p q : Nat) : F64 :=
  if p = 0 then { num := 0, shift := 0 }
  else
    let e0 : Int := (ilog2 p : Int) - (ilog2 q : Int) - 52
    let e : Int :=
      if 2 ^ 52 ≤ F64.scaledNum p e0 / F64.scaledDen q e0 then e0 else e0 - 1
    let m := roundHalfEven (F64.scaledNum p e) (F64.scaledDen q e)
    if e < 0 then { num := (m : Int), shift := (-e).toNat }
    else { num := ((m * 2 ^ e.toNat : Nat) : Int), shift := 0 }

/-- The `float64` nearest to `p / q`, negated when `neg`. -/
def F64.signed (neg : Bool) (p q : Nat) : F64 :=
  if neg = true then { num := -(F64.round p q).num, shift := (F64.round p q).shift }
  else F64.round p q

/-- The conversion `float64(i)` of an integer, and the value of an integer
constant such as `2`, `10` or `1e9`. -/
def F64.ofInt (i : Int) : F64 := F64.signed (decide (i < 0)) i.natAbs 1

/-- The `float64` sum `a + b`: the exact sum, rounded. -/
def F64.add (a b : F64) : F64 :=
  F64.signed (decide (a.num * 2 ^ b.shift + b.num * 2 ^ a.shift < 0))
    (a.num * 2 ^ b.shift + b.num * 2 ^ a.shift).natAbs (2 ^ (a.shift + b.shift))

/-- The `float64` difference `a - b`: the exact difference, rounded. -/
def F64.sub (a b : F64) : F64 :=
  F64.signed (decide (a.num * 2 ^ b.shift - b.num * 2 ^ a.shift < 0))
    (a.num * 2 ^ b.shift - b.num * 2 ^ a.shift).natAbs (2 ^ (a.shift + b.shift))

/-- The `float64` quotient `a / b` for `b ≠ 0`: the exact quotient, rounded. -/
def F64.div (a b : F64) : F64 :=
  F64.signed (decide (a.num < 0) != decide (b.num < 0))
    (a.num.natAbs * 2 ^ b.shift) (b.num.natAbs * 2 ^ a.shift)

/-- The comparison `a >= b`. -/
def F64.ge (a b : F64) : Bool := decide (b.num * 2 ^ a.shift ≤ a.num * 2 ^ b.shift)

/-- The verb `%.0f`: the sign, then the magnitude rounded to an integer, ties to
even; a negative value that rounds to zero prints as "-0". -/
def F64.fmt0 (x : F64) : String :=
  (if x.num < 0 then "-" else "") ++ toString (roundHalfEven x.num.natAbs (2 ^ x.shift))

/-- The call `time.Since(last)` made at `now`, in nanoseconds: the difference of
the two clock readings, saturated to the range of `int64`. -/
def Since (now last : Time) : Int :=
  if (now : Int) - (last : Int) > 9223372036854775807 then 9223372036854775807
  else if (now : Int) - (last : Int) < -9223372036854775808 then -9223372036854775808
  else (now : Int) - (last : Int)

/-- The method `Duration.Seconds()`: with `sec := d / Second` and
`nsec := d % Second` (truncated division), `float64(sec) + float64(nsec)/1e9`. -/
def Duration.Seconds (d : Int) : F64 :=
  F64.add (F64.ofInt (d.tdiv Second))
    (F64.div (F64.ofInt (d.tmod Second)) (F64.ofInt 1000000000))

/-- The third operand of the `Sprintf` at line 124, `10 - timeSinceLastCommunication`. -/
def sendInactivityNotification.remaining (timeSince : F64) : F64 :=
  F64.sub (F64.ofInt 10) timeSince

/-- The text built at line 124. -/
def sendInactivityNotification.warning (id : String) (timeSince : F64) : String :=
  "Hi " ++ id ++ ",You haven\x27t communicated for " ++ timeSince.fmt0 ++
    " seconds. Connection will be closed in " ++
    (sendInactivityNotification.remaining timeSince).fmt0 ++ " seconds."

/-- Lines 123 to 125: what the tick writes to the connection, if anything, when
`time.Since(client.LastActivity).Seconds()` is `timeSince`. -/
def sendInactivityNotification.tick (client : Client) (timeSince : F64) : Option String :=
  if timeSince.ge (F64.ofInt 2) = true then
    some (sendInactivityNotification.warning client.ID timeSince)
  else none

/-- One statement of `sendInactivityNotification`, run at `now`.  At the `select`,
`preferTick` is the choice the runtime makes when both cases are ready. -/
def sendInactivityNotification.step (now : Time) (preferTick : Bool) (writeOk : Bool)
    (x : Session) : Except Fault Effect :=
  match x.mon with
  | .unstarted => .ok { sess := x, unregister := none, events := [] }
  | .arming =>
    .ok { sess := { x with mon := .waiting (now + 2 * Second) },
          unregister := none, events := [] }
  | .waiting due =>
    if x.client.Closed = true ∧ (preferTick = false ∨ now < due) then
      .ok { sess := { x with mon := .exited }, unregister := none, events := [] }
    else if due ≤ now then
      match sendInactivityNotification.tick x.client
          (Duration.Seconds (Since now x.client.LastActivity)) with
      | none => .ok { sess := { x with mon := .arming }, unregister := none, events := [] }
      | some message =>
        if writeOk = true ∧ x.connClosed = false then
          .ok { sess := { x with mon := .arming }, unregister := none,
                events := [.connWrite x.client.Conn message] }
        else
          .ok { sess := { x with mon := .exited }, unregister := none,
                events := [.connWrite x.client.Conn message,
                           .print (.notifyError x.client.ID)] }
    else .ok { sess := x, unregister := none, events := [] }
  | .exited => .ok { sess := x, unregister := none, events := [] }

/-! ## The process -/

/-- One scheduling decision together with what the environment supplies. -/
inductive Action where
  | request (userId : String) (upgradeOk : Bool) (now : Time)
  | ws (p : Ptr) (now : Time) (preferTimer : Bool)
  | hw (p : Ptr) (now : Time) (input : ReadResult) (writeOk : Bool)
  | mon (p : Ptr) (now : Time) (preferTick : Bool) (writeOk : Bool)
deriving DecidableEq

/-- Writes the outcome of a statement of session `p` back into the process; a
panic kills the process. -/
def State.commit (s : State) (p : Ptr) : Except Fault Effect → State
  | .error f => { s with fault := some f }
  | .ok eff =>
    { s with
      clients :=
        match eff.unregister with
        | none => s.clients
        | some key => fun k => if k = key then none else s.clients k
      heap := s.heap.set p eff.sess
      trace := s.trace ++ eff.events }

/-- One step of the process.  A dead process and a step of a session that was
never allocated change nothing. -/
def step (s : State) (a : Action) : State :=
  match s.fault with
  | some _ => s
  | none =>
    match a with
    | .request userId upgradeOk now => wsHandler.register s userId upgradeOk now
    | .ws p now preferTimer =>
      match s.heap[p]? with
      | none => s
      | some x => s.commit p (wsHandler.step now preferTimer x)
    | .hw p now input writeOk =>
      match s.heap[p]? with
      | none => s
      | some x => s.commit p (handleWebSocket.step now input writeOk x)
    | .mon p now preferTick writeOk =>
      match s.heap[p]? with
      | none => s
      | some x => s.commit p (sendInactivityNotification.step now preferTick writeOk x)

/-- The process after a schedule. -/
def run (s : State) (schedule : List Action) : State := schedule.foldl step s

/-! ## Schedules and auxiliary predicates used in the statements -/

/-- The schedule that accepts identifier "5" at time 0 and lets `wsHandler` start
both goroutines and create the timer: session 0 then waits in its `select`. -/
def connectFive : List Action :=
  [.request "5" true 0, .ws 0 0 false, .ws 0 0 false, .ws 0 0 false]

/-- The teardown the registry contract asks of a replaced session: its transport
closed and its tasks signalled to stop. -/
def Session.tornDown (x : Session) : Prop := x.connClosed = true ∧ x.client.Closed = true

instance (x : Session) : Decidable x.tornDown := by
  unfold Session.tornDown
  infer_instance

/-- The schedule after which session 0 ("5") has been idle for 10 seconds and has
been torn down through the timer case: the monitor ticked at 2, 4, 6 and 8 s,
`wsHandler` returned at 10 s, `handleWebSocket` left on the read error that
follows `Conn.Close`, the monitor left on `Closed`. -/
def idleTimeoutFive : List Action :=
  connectFive ++
    [.hw 0 0 .blocked true, .mon 0 0 false true,
     .mon 0 (2 * Second) true true, .mon 0 (2 * Second) true true,
     .mon 0 (4 * Second) true true, .mon 0 (4 * Second) true true,
     .mon 0 (6 * Second) true true, .mon 0 (6 * Second) true true,
     .mon 0 (8 * Second) true true, .mon 0 (8 * Second) true true,
     .ws 0 (10 * Second) false,
     .hw 0 (10 * Second) .blocked true,
     .mon 0 (10 * Second) false true]

/-- The session state in which both cases of the `select` are ready: session 0
("5") has been idle for 10 seconds and its peer has just disconnected. -/
def bothReadyFive : List Action :=
  connectFive ++ [.hw 0 (10 * Second) .failed true]

/-- The schedule after which two sessions carry the identifier "5": session 0,
whose peer has just disconnected, and the newer session 1, bound in `clients`
and waiting in its `select`. -/
def twoFives : List Action :=
  connectFive ++
    [.request "5" true Second, .ws 1 Second false, .ws 1 Second false, .ws 1 Second false,
     .hw 0 (2 * Second) .failed true]

/-- The schedule in which the first frame of session "5" is read and handled
before `wsHandler` has run line 76. -/
def earlyFrameFive : List Action :=
  [.request "5" true 0, .ws 0 0 false,
   .hw 0 0 (.frame "hello") true, .hw 0 0 .blocked true, .hw 0 0 .blocked true]

/-- Once `wsHandler` has passed line 76 the `Timer` field is set. -/
def Session.timerSet (x : Session) : Prop :=
  (x.ws = .selecting ∨ x.ws = .returned) → x.client.Timer ≠ none

/-- Every allocated session satisfies `Session.timerSet`. -/
def State.timersSet (s : State) : Prop :=
  ∀ (p : Ptr) (x : Session), s.heap[p]? = some x → x.timerSet

/-- The schedule in which session "5", connected at 0, receives the frame "ping"
at 9 s and handles it at once. -/
def frameAtNine : List Action :=
  connectFive ++
    [.hw 0 (9 * Second) (.frame "ping") true, .hw 0 (9 * Second) .blocked true,
     .hw 0 (9 * Second) .blocked true, .hw 0 (9 * Second) .blocked true]

/-- The remaining time as the specification words it, to be compared with
`sendInactivityNotification.remaining`: `idleWindow - elapsed`, floored at zero. -/
def remainingFloored (timeSince : F64) : F64 :=
  if (F64.sub (F64.ofInt 10) timeSince).num < 0 then F64.ofInt 0
  else F64.sub (F64.ofInt 10) timeSince

/-- The schedule in which the first frame of session "5" arrives one microsecond
after the handshake and is handled before `wsHandler` has run line 76. -/
def earlyFrameTimed : List Action :=
  [.request "5" true 0, .ws 0 0 false,
   .hw 0 1000 (.frame "ping") true, .hw 0 1000 .blocked true, .hw 0 1000 .blocked true]

/-! ## Identifier validation and registration -/

/-- What `wsHandler.validate` answers, case by case. -/
theorem wsHandler.validate_error_iff (userId body : String) :
    wsHandler.validate userId = .error body ↔
      ((userId = "" ∨ (∃ e, Atoi userId = .error e) ∨
          (∃ n, Atoi userId = .ok n ∧ (n < 1 ∨ 10 < n))) ∧
        body = if userId = "" then "Login number is required" else "Invalid user id") := by
  unfold wsHandler.validate
  by_cases h0 : userId = ""
  · subst h0
    simp
    exact eq_comm
  · simp only [h0, if_false, false_or]
    cases hA : Atoi userId with
    | error e =>
      simp
      exact eq_comm
    | ok n =>
      by_cases hn : n < 1 ∨ n > 10
      · simp [hn]
        exact eq_comm
      · simp [hn]

/-- C1: `wsHandler` answers a request with a single `http.Error` of status 400 and
text `body`, without calling `Upgrade` and without allocating a `Client` or
touching `clients`, exactly when `userId` is empty, `strconv.Atoi` fails on it,
or the parsed number is outside 1..10; `body` is then "Login number is required"
for the empty identifier and "Invalid user id" otherwise. -/
theorem wsHandler_rejects_iff (s : State) (userId : String) (upgradeOk : Bool) (now : Time)
    (body : String) :
    ((wsHandler.register s userId upgradeOk now).trace = s.trace ++ [.httpError 400 body] ∧
       (wsHandler.register s userId upgradeOk now).heap = s.heap ∧
       (wsHandler.register s userId upgradeOk now).clients = s.clients) ↔
      ((userId = "" ∨ (∃ e, Atoi userId = .error e) ∨
          (∃ n, Atoi userId = .ok n ∧ (n < 1 ∨ 10 < n))) ∧
        body = if userId = "" then "Login number is required" else "Invalid user id") := by
  rw [← wsHandler.validate_error_iff]
  unfold wsHandler.register
  cases hv : wsHandler.validate userId with
  | error b =>
    simp
  | ok n =>
    cases upgradeOk <;> simp

/-- C2: on an invalid identifier or a failed handshake the registration phase of
`wsHandler` leaves `clients` (and the allocated sessions) as they were; on a
valid identifier with a successful handshake `clients` maps the identifier to
the newly allocated `Client`, and every other key is bound as before.  The
identifiers "1" to "10" are valid; "abc", "0", "11" and "" are not. -/
theorem wsHandler_register_frame (s : State) (userId : String) (upgradeOk : Bool) (now : Time) :
    (((∃ body, wsHandler.validate userId = .error body) ∨ upgradeOk = false) →
        (wsHandler.register s userId upgradeOk now).clients = s.clients ∧
        (wsHandler.register s userId upgradeOk now).heap = s.heap) ∧
    (((∃ n, wsHandler.validate userId = .ok n) ∧ upgradeOk = true) →
        (wsHandler.register s userId upgradeOk now).clients userId = some s.heap.length ∧
        (wsHandler.register s userId upgradeOk now).heap =
          s.heap ++ [Session.fresh userId s.heap.length now] ∧
        (wsHandler.register s userId upgradeOk now).heap[s.heap.length]? =
          some (Session.fresh userId s.heap.length now) ∧
        ∀ k, k ≠ userId → (wsHandler.register s userId upgradeOk now).clients k = s.clients k) ∧
    (∀ i ∈ List.range' 1 10, wsHandler.validate (toString i) = .ok (i : Int)) ∧
    (wsHandler.validate "abc" = .error "Invalid user id" ∧
      wsHandler.validate "0" = .error "Invalid user id" ∧
      wsHandler.validate "11" = .error "Invalid user id" ∧
      wsHandler.validate "" = .error "Login number is required") := by
  refine ⟨?_, ?_, by decide, by decide⟩
  · rintro (⟨body, hb⟩ | hu)
    · simp [wsHandler.register, hb]
    · subst hu
      unfold wsHandler.register
      cases wsHandler.validate userId <;> simp
  · rintro ⟨⟨n, hn⟩, hu⟩
    subst hu
    simp only [wsHandler.register, hn]
    refine ⟨by simp, by simp, by simp, ?_⟩
    intro k hk
    simp [hk]

/-- Registration at concrete inputs: "5" is registered on an empty registry, "0"
is refused and changes nothing. -/
theorem wsHandler_register_frame_witness :
    (wsHandler.register State.init "5" true 0).clients "5" = some 0 ∧
    (wsHandler.register State.init "0" true 0).clients = State.init.clients :=
  ⟨((wsHandler_register_frame State.init "5" true 0).2.1 ⟨⟨5, by decide⟩, rfl⟩).1,
   ((wsHandler_register_frame State.init "0" true 0).1 (Or.inl ⟨"Invalid user id", by decide⟩)).1⟩

/-! ## Reconnection under an identifier already in use -/

/-- C7, as stated, fails: after "5" reconnects while session 0 (also "5") waits
in its `select`, `clients` is bound to the new session 1 and session 0 is still
there untouched, transport open and `Closed` not signalled: two live sessions
carry the identifier "5". -/
theorem register_same_id_prior_session_live :
    (run State.init connectFive).clients "5" = some 0 ∧
    (wsHandler.register (run State.init connectFive) "5" true Second).clients "5" = some 1 ∧
    (wsHandler.register (run State.init connectFive) "5" true Second).heap.map
        (fun x => (x.client.ID, x.connClosed, x.client.Closed, x.hw, x.mon)) =
      [("5", false, false, .reading, .arming), ("5", false, false, .unstarted, .unstarted)] ∧
    ∀ x ∈ (wsHandler.register (run State.init connectFive) "5" true Second).heap,
      ¬ x.tornDown := by
  decide

/-- C7, amended: registering a valid identifier that is already bound in `clients`
rebinds it to the newly allocated `Client` and leaves the session bound before
exactly as it was; the registration closes no connection. -/
theorem wsHandler_register_rebinds_only (s : State) (userId : String) (now : Time) (n : Int)
    (p : Ptr) (x : Session) (hv : wsHandler.validate userId = .ok n)
    (hreg : s.clients userId = some p) (hx : s.heap[p]? = some x) :
    (wsHandler.register s userId true now).clients userId = some s.heap.length ∧
    p ≠ s.heap.length ∧
    (wsHandler.register s userId true now).heap[p]? = some x ∧
    (wsHandler.register s userId true now).heap[s.heap.length]? =
      some (Session.fresh userId s.heap.length now) ∧
    (wsHandler.register s userId true now).trace =
      s.trace ++ [.upgrade true, .print (.connected userId n)] := by
  have _ := hreg
  have hp : p < s.heap.length := by
    rcases List.getElem?_eq_some_iff.mp hx with ⟨h, _⟩
    exact h
  simp only [wsHandler.register, hv]
  refine ⟨by simp, Nat.ne_of_lt hp, ?_, by simp, by simp⟩
  simp [List.getElem?_append_left hp, hx]

/-- The amended C7 at the reconnection of "5". -/
theorem wsHandler_register_rebinds_only_witness :
    (wsHandler.register (run State.init connectFive) "5" true Second).heap[0]? =
      (run State.init connectFive).heap[0]? :=
  (wsHandler_register_rebinds_only (run State.init connectFive) "5" Second 5 0
    { client := { ID := "5", Conn := 0, Closed := false, LastActivity := 0,
                  Timer := some (NewTimer 0 (10 * Second)) }
      connClosed := false, ws := .selecting, hw := .reading, mon := .arming }
    (by decide) (by decide) (by decide)).2.2.1.trans (by decide)

/-! ## The two exits of the supervising `select` -/

/-- Steps of `handleWebSocket` never touch `clients`. -/
theorem handleWebSocket.reader_never_unregisters (now : Time) (input : ReadResult) (writeOk : Bool)
    (x : Session) (eff : Effect) (h : handleWebSocket.step now input writeOk x = .ok eff) :
    eff.unregister = none := by
  unfold handleWebSocket.step at h
  split at h
  · cases h; rfl
  · split at h <;> cases h <;> rfl
  · cases h; rfl
  · split at h
    · cases h
    · cases h; rfl
  · split at h <;> cases h <;> rfl
  · cases h; rfl

/-- Steps of `sendInactivityNotification` never touch `clients`. -/
theorem sendInactivityNotification.monitor_never_unregisters (now : Time) (preferTick writeOk : Bool)
    (x : Session) (eff : Effect)
    (h : sendInactivityNotification.step now preferTick writeOk x = .ok eff) :
    eff.unregister = none := by
  unfold sendInactivityNotification.step at h
  split at h
  · cases h; rfl
  · cases h; rfl
  · split at h
    · cases h; rfl
    · split at h
      · split at h
        · cases h; rfl
        · split at h <;> cases h <;> rfl
      · cases h; rfl
  · cases h; rfl

/-- The timer case of the `select` at lines 81 to 83: the connection is closed and
the timer stopped, and no `delete(clients, userId)` is performed. -/
theorem wsHandler.step_timer_case (now : Time) (preferTimer : Bool) (x : Session) (tm : Timer)
    (hws : x.ws = .selecting) (hT : x.client.Timer = some tm) (hready : tm.ready now = true)
    (hpick : preferTimer = true ∨ x.client.Closed = false) :
    wsHandler.step now preferTimer x =
      .ok { sess := { x with
                      client := { x.client with Timer := some ((tm.receive now).Stop now) }
                      connClosed := true
                      ws := .returned },
            unregister := none, events := [.connClose x.client.Conn] } := by
  unfold wsHandler.step
  simp [hws, hT, hready, hpick]

/-- The closed case of the `select` at lines 84 to 87: the key is deleted from
`clients` and the timer stopped, and `Conn.Close` is not called. -/
theorem wsHandler.step_closed_case (now : Time) (preferTimer : Bool) (x : Session) (tm : Timer)
    (hws : x.ws = .selecting) (hT : x.client.Timer = some tm) (hC : x.client.Closed = true)
    (hpick : tm.ready now = false ∨ preferTimer = false) :
    wsHandler.step now preferTimer x =
      .ok { sess := { x with
                      client := { x.client with Timer := some (tm.Stop now) }
                      ws := .returned },
            unregister := some x.client.ID,
            events := [.print (.disconnected x.client.ID)] } := by
  unfold wsHandler.step
  have hn : ¬ (tm.ready now = true ∧ (preferTimer = true ∨ x.client.Closed = false)) := by
    rintro ⟨h1, h2⟩
    rcases hpick with h | h
    · rw [h] at h1
      cases h1
    · rcases h2 with h2 | h2
      · rw [h] at h2
        cases h2
      · rw [hC] at h2
        cases h2
  simp only [hws, hT]
  rw [if_neg hn, if_pos hC]

/-- C5 at its failing input: session "5" receives no message, the idle timer fires
at 10 s, `wsHandler` closes the connection and returns, `handleWebSocket` and the
monitor exit; `clients` still binds "5" to the dead session. -/
theorem idle_timeout_leaves_registry_entry :
    (run State.init idleTimeoutFive).heap.map
        (fun x => (x.connClosed, x.client.Closed, x.ws, x.hw, x.mon)) =
      [(true, true, .returned, .exited, .exited)] ∧
    (run State.init idleTimeoutFive).trace =
      [.upgrade true, .print (.connected "5" 5),
       .connWrite 0 ("Hi 5,You haven\x27t communicated for 2 seconds. " ++
         "Connection will be closed in 8 seconds."),
       .connWrite 0 ("Hi 5,You haven\x27t communicated for 4 seconds. " ++
         "Connection will be closed in 6 seconds."),
       .connWrite 0 ("Hi 5,You haven\x27t communicated for 6 seconds. " ++
         "Connection will be closed in 4 seconds."),
       .connWrite 0 ("Hi 5,You haven\x27t communicated for 8 seconds. " ++
         "Connection will be closed in 2 seconds."),
       .connClose 0, .print (.readError "5")] ∧
    (run State.init idleTimeoutFive).fault = none ∧
    (run State.init idleTimeoutFive).clients "5" = some 0 := by
  decide

/-- C6 at its failing input: from one and the same state the timer case closes the
connection and keeps the `clients` entry, while the closed case deletes the
`clients` entry and never closes the connection; both stop the timer. -/
theorem select_exits_differ :
    ((step (run State.init bothReadyFive) (.ws 0 (10 * Second) true)).heap.map
        (fun x => (x.ws, x.connClosed, x.client.Timer.map (fun tm => tm.deadline))) =
      [(.returned, true, some none)] ∧
     (step (run State.init bothReadyFive) (.ws 0 (10 * Second) true)).clients "5" = some 0 ∧
     (step (run State.init bothReadyFive) (.ws 0 (10 * Second) true)).trace =
       (run State.init bothReadyFive).trace ++ [.connClose 0]) ∧
    ((step (run State.init bothReadyFive) (.ws 0 (10 * Second) false)).heap.map
        (fun x => (x.ws, x.connClosed, x.client.Timer.map (fun tm => tm.deadline))) =
      [(.returned, false, some none)] ∧
     (step (run State.init bothReadyFive) (.ws 0 (10 * Second) false)).clients "5" = none ∧
     (step (run State.init bothReadyFive) (.ws 0 (10 * Second) false)).trace =
       (run State.init bothReadyFive).trace ++ [.print (.disconnected "5")]) := by
  decide

/-- C8, as stated, fails: when the older session 0 leaves through the closed case,
`delete(clients, userId)` removes the entry bound to the newer session 1, which
is still live. -/
theorem closed_path_deletes_newer_entry :
    (run State.init twoFives).clients "5" = some 1 ∧
    (step (run State.init twoFives) (.ws 0 (2 * Second) false)).clients "5" = none ∧
    (step (run State.init twoFives) (.ws 0 (2 * Second) false)).heap.map
        (fun x => (x.client.ID, x.ws, x.connClosed, x.client.Closed)) =
      [("5", .returned, false, true), ("5", .selecting, false, false)] := by
  decide

/-- C8, amended: when session `p` leaves through the closed case of its `select`,
every `clients` entry under another identifier string is present and unchanged
afterwards, the entry under its own identifier string is removed whichever
session it was bound to, and no other session record changes. -/
theorem closed_path_registry (s : State) (p : Ptr) (x : Session) (tm : Timer) (now : Time)
    (preferTimer : Bool) (hf : s.fault = none) (hx : s.heap[p]? = some x)
    (hws : x.ws = .selecting) (hT : x.client.Timer = some tm) (hC : x.client.Closed = true)
    (hpick : tm.ready now = false ∨ preferTimer = false) :
    (step s (.ws p now preferTimer)).clients x.client.ID = none ∧
    (∀ k, k ≠ x.client.ID → (step s (.ws p now preferTimer)).clients k = s.clients k) ∧
    (∀ q, q ≠ p → (step s (.ws p now preferTimer)).heap[q]? = s.heap[q]?) ∧
    (step s (.ws p now preferTimer)).fault = none := by
  simp only [step, hf, hx, wsHandler.step_closed_case now preferTimer x tm hws hT hC hpick,
    State.commit]
  refine ⟨by simp, ?_, ?_, trivial⟩
  · intro k hk
    simp [hk]
  · intro q hq
    exact List.getElem?_set_ne (Ne.symm hq)

/-- The amended C8 at the exit of the older of the two sessions "5". -/
theorem closed_path_registry_witness :
    (step (run State.init twoFives) (.ws 0 (2 * Second) false)).heap[1]? =
      (run State.init twoFives).heap[1]? :=
  (closed_path_registry (run State.init twoFives) 0
    { client := { ID := "5", Conn := 0, Closed := true, LastActivity := 0,
                  Timer := some (NewTimer 0 (10 * Second)) }
      connClosed := false, ws := .selecting, hw := .exited, mon := .arming }
    (NewTimer 0 (10 * Second)) (2 * Second) false (by decide) (by decide) rfl rfl rfl
    (Or.inr rfl)).2.2.1 1 (by decide)

/-! ## The order of `go handleWebSocket(client)` and `time.NewTimer` -/

/-- When `wsHandler` starts `handleWebSocket` (line 72, its first statement after
registration) the `Timer` field of the client is still nil. -/
theorem wsHandler.step_spawnReader (userId : String) (p : Ptr) (t now : Time) (b : Bool) :
    ∃ eff, wsHandler.step now b (Session.fresh userId p t) = .ok eff ∧
      eff.sess.hw = .reading ∧ eff.sess.client.Timer = none ∧ eff.sess.ws = .spawnMonitor :=
  ⟨_, rfl, rfl, rfl, rfl⟩

/-- C10 at its failing input: right after `go handleWebSocket(client)` the timer is
nil, and if the first frame is handled before `wsHandler` reaches
`time.NewTimer`, `client.Timer.Reset` dereferences nil and the process panics. -/
theorem reset_before_new_timer_panics :
    (run State.init (earlyFrameFive.take 2)).heap.map
        (fun x => (x.ws, x.hw, x.client.Timer)) = [(.spawnMonitor, .reading, none)] ∧
    (run State.init (earlyFrameFive.take 4)).heap.map
        (fun x => (x.ws, x.hw, x.client.Timer)) = [(.spawnMonitor, .reset "hello", none)] ∧
    (run State.init (earlyFrameFive.take 4)).fault = none ∧
    (run State.init earlyFrameFive).fault = some .nilDeref := by
  decide

/-! ## The response to a frame -/

/-- Line 105: `client.LastActivity = time.Now()`. -/
theorem handleWebSocket.step_touch (x : Session) (m : String) (t : Time) (input : ReadResult)
    (writeOk : Bool) (hhw : x.hw = .touch m) :
    handleWebSocket.step t input writeOk x =
      .ok { sess := { x with client := { x.client with LastActivity := t }, hw := .reset m },
            unregister := none, events := [] } := by
  simp [handleWebSocket.step, hhw]

/-- Line 106 on a timer that exists: `client.Timer.Reset(10 * time.Second)`. -/
theorem handleWebSocket.step_reset (x : Session) (tm : Timer) (m : String) (t : Time)
    (input : ReadResult) (writeOk : Bool) (hhw : x.hw = .reset m)
    (hT : x.client.Timer = some tm) :
    handleWebSocket.step t input writeOk x =
      .ok { sess := { x with
                      client := { x.client with Timer := some (tm.Reset t (10 * Second)) }
                      hw := .respond m },
            unregister := none, events := [] } := by
  simp [handleWebSocket.step, hhw, hT]

/-- Lines 108 to 112: the write, whatever its outcome, is the only effect on a
connection. -/
theorem handleWebSocket.step_respond (x : Session) (m : String) (t : Time)
    (input : ReadResult) (writeOk : Bool) (hhw : x.hw = .respond m) :
    ∃ eff, handleWebSocket.step t input writeOk x = .ok eff ∧
      eff.events.filter Event.isWrite =
        [.connWrite x.client.Conn ("Hi " ++ x.client.ID ++ ", You just said: " ++ m)] ∧
      eff.unregister = none := by
  by_cases h : writeOk = true ∧ x.connClosed = false
  · refine ⟨{ sess := { x with hw := .reading }, unregister := none,
              events := [.connWrite x.client.Conn (handleWebSocket.response x.client.ID m)] },
      ?_, ?_, rfl⟩
    · simp only [handleWebSocket.step, hhw, if_pos h]
    · simp [handleWebSocket.response, Event.isWrite]
  · refine ⟨{ sess := { x with client := { x.client with Closed := true }, hw := .exited },
              unregister := none,
              events := [.connWrite x.client.Conn (handleWebSocket.response x.client.ID m),
                         .print (.writeError x.client.ID)] },
      ?_, ?_, rfl⟩
    · simp only [handleWebSocket.step, hhw, if_neg h]
    · simp [handleWebSocket.response, Event.isWrite]

/-- With the timer in place, the statements that follow a successful
`ReadMessage` (lines 105 to 109) perform exactly one write, on the connection of
the client itself, of the text `"Hi " ++ ID ++ ", You just said: " ++ m`. -/
theorem handleWebSocket.responds_once (x : Session) (tm : Timer) (m : String) (t : Time)
    (writeOk : Bool) (hhw : x.hw = .touch m) (hT : x.client.Timer = some tm) :
    ∃ e1 e2 e3,
      handleWebSocket.step t .blocked writeOk x = .ok e1 ∧
      handleWebSocket.step t .blocked writeOk e1.sess = .ok e2 ∧
      handleWebSocket.step t .blocked writeOk e2.sess = .ok e3 ∧
      (e1.events ++ e2.events ++ e3.events).filter Event.isWrite =
        [.connWrite x.client.Conn ("Hi " ++ x.client.ID ++ ", You just said: " ++ m)] := by
  have h1 := handleWebSocket.step_touch x m t .blocked writeOk hhw
  have h2 := handleWebSocket.step_reset
    { x with client := { x.client with LastActivity := t }, hw := .reset m } tm m t .blocked
    writeOk rfl hT
  obtain ⟨e3, h3, hev, _⟩ := handleWebSocket.step_respond
    { x with
      client := { x.client with LastActivity := t, Timer := some (tm.Reset t (10 * Second)) }
      hw := .respond m } m t .blocked writeOk rfl
  exact ⟨_, _, e3, h1, h2, h3, by simpa using hev⟩

/-- C3 at its failing input: session "5" successfully receives the payload "hello"
before `wsHandler` has created the timer; the process panics at line 106 and no
write is ever performed.  Received after the timer exists, the same payload is
answered by the single write "Hi 5, You just said: hello" on connection 0. -/
theorem early_frame_gets_no_response :
    ((run State.init earlyFrameFive).fault = some .nilDeref ∧
     (run State.init earlyFrameFive).trace = [.upgrade true, .print (.connected "5" 5)]) ∧
    (run State.init (connectFive ++
        [.hw 0 0 (.frame "hello") true, .hw 0 0 .blocked true, .hw 0 0 .blocked true,
         .hw 0 0 .blocked true])).trace =
      [.upgrade true, .print (.connected "5" 5),
       .connWrite 0 "Hi 5, You just said: hello"] := by
  decide

/-! ## The idle window -/

/-- A timer reset at `t` before it expired is ready exactly from `t + d` on. -/
theorem Timer.ready_Reset (tm : Timer) (t d t' : Time) (hlive : tm.ready t = false) :
    (tm.Reset t d).ready t' = true ↔ t + d ≤ t' := by
  have hpend : (tm.observe t).pending = false := hlive
  simp only [Timer.ready, Timer.Reset, hpend]
  by_cases h : t + d ≤ t'
  · simp [Timer.observe, h]
  · simp [Timer.observe, h]

/-- The session-level content of the idle window: on an open session waiting in
its `select`, whose timer exists and has not expired at `t`, handling a frame at
`t` sets `LastActivity` to `t` and the deadline to `t + 10 s`; from then on, with
no further frame, the `select` of `wsHandler` blocks at every instant before
`t + 10 s` and takes the timer case, closing the connection, at every instant
from `t + 10 s` on. -/
theorem handleWebSocket.resets_idle_window (x : Session) (tm : Timer) (m : String) (t : Time)
    (hhw : x.hw = .touch m) (hws : x.ws = .selecting) (hT : x.client.Timer = some tm)
    (hlive : tm.ready t = false) (hopen : x.client.Closed = false)
    (hconn : x.connClosed = false) :
    ∃ e1 e2 e3,
      handleWebSocket.step t .blocked true x = .ok e1 ∧
      handleWebSocket.step t .blocked true e1.sess = .ok e2 ∧
      handleWebSocket.step t .blocked true e2.sess = .ok e3 ∧
      e3.sess.hw = .reading ∧
      e3.sess.client.LastActivity = t ∧
      e3.sess.client.Timer = some { deadline := some (t + 10 * Second), pending := false } ∧
      (∀ t' b, t' < t + 10 * Second →
        wsHandler.step t' b e3.sess = .ok { sess := e3.sess, unregister := none, events := [] } ∧
        handleWebSocket.step t' .blocked true e3.sess =
          .ok { sess := e3.sess, unregister := none, events := [] }) ∧
      (∀ t' b, t + 10 * Second ≤ t' →
        ∃ e4, wsHandler.step t' b e3.sess = .ok e4 ∧ e4.sess.connClosed = true ∧
          e4.sess.ws = .returned ∧ e4.events = [.connClose x.client.Conn] ∧
          e4.unregister = none) := by
  have h1 := handleWebSocket.step_touch x m t .blocked true hhw
  have h2 := handleWebSocket.step_reset
    { x with client := { x.client with LastActivity := t }, hw := .reset m } tm m t .blocked
    true rfl hT
  have hpend : (tm.observe t).pending = false := hlive
  refine ⟨_, _,
    { sess := { x with
                client := { x.client with
                            LastActivity := t, Timer := some (tm.Reset t (10 * Second)) }
                hw := .reading },
      unregister := none,
      events := [.connWrite x.client.Conn (handleWebSocket.response x.client.ID m)] },
    h1, h2, ?_, rfl, rfl, ?_, ?_, ?_⟩
  · simp [handleWebSocket.step, hconn]
  · simp [Timer.Reset, hpend]
  · intro t' b ht'
    have hnr : (tm.Reset t (10 * Second)).ready t' = false := by
      cases hr : (tm.Reset t (10 * Second)).ready t' with
      | false => rfl
      | true => exact absurd ((Timer.ready_Reset tm t _ t' hlive).mp hr) (Nat.not_le.mpr ht')
    constructor
    · simp [wsHandler.step, hws, hnr, hopen]
    · simp [handleWebSocket.step, hconn]
  · intro t' b ht'
    have hr : (tm.Reset t (10 * Second)).ready t' = true :=
      (Timer.ready_Reset tm t _ t' hlive).mpr ht'
    refine ⟨_, wsHandler.step_timer_case t' b _ (tm.Reset t (10 * Second)) hws rfl hr
      (Or.inr hopen), rfl, rfl, rfl, rfl⟩

/-! ## Sessions that wait in the `select` have a timer -/

/-- Statements of `wsHandler` keep `Session.timerSet`: line 76 sets the timer before
the `select` is entered. -/
theorem wsHandler.supervisor_keeps_timerSet (now : Time) (b : Bool) (x : Session) (eff : Effect)
    (h : wsHandler.step now b x = .ok eff) (hx : x.timerSet) : eff.sess.timerSet := by
  unfold Session.timerSet at *
  unfold wsHandler.step at h
  repeat' split at h
  all_goals first
    | (cases h; done)
    | (cases h; simp_all)

/-- Statements of `handleWebSocket` keep `Session.timerSet`. -/
theorem handleWebSocket.reader_keeps_timerSet (now : Time) (input : ReadResult) (w : Bool) (x : Session)
    (eff : Effect) (h : handleWebSocket.step now input w x = .ok eff) (hx : x.timerSet) :
    eff.sess.timerSet := by
  unfold Session.timerSet at *
  unfold handleWebSocket.step at h
  repeat' split at h
  all_goals first
    | (cases h; done)
    | (cases h; simp_all)

/-- Statements of `sendInactivityNotification` keep `Session.timerSet`. -/
theorem sendInactivityNotification.monitor_keeps_timerSet (now : Time) (b w : Bool) (x : Session)
    (eff : Effect) (h : sendInactivityNotification.step now b w x = .ok eff)
    (hx : x.timerSet) : eff.sess.timerSet := by
  unfold Session.timerSet at *
  unfold sendInactivityNotification.step at h
  repeat' split at h
  all_goals first
    | (cases h; done)
    | (cases h; simp_all)

/-- Writing back a statement that keeps `Session.timerSet` keeps `State.timersSet`. -/
theorem State.commit_timersSet (s : State) (p : Ptr) (r : Except Fault Effect)
    (hs : s.timersSet) (hr : ∀ eff, r = .ok eff → eff.sess.timerSet) :
    (s.commit p r).timersSet := by
  cases r with
  | error f => exact hs
  | ok eff =>
    intro q y hy
    simp only [State.commit] at hy
    by_cases hq : p = q
    · subst hq
      rw [List.getElem?_set] at hy
      simp only [if_true] at hy
      split at hy
      · cases hy
        exact hr eff rfl
      · cases hy
    · rw [List.getElem?_set_ne hq] at hy
      exact hs q y hy

/-- Registration keeps `State.timersSet`: the new session has not reached line 76. -/
theorem wsHandler.register_timersSet (s : State) (userId : String) (ok : Bool) (now : Time)
    (hs : s.timersSet) : (wsHandler.register s userId ok now).timersSet := by
  unfold wsHandler.register
  cases wsHandler.validate userId with
  | error b => exact hs
  | ok n =>
    cases ok with
    | false => exact hs
    | true =>
      intro q y hy
      simp only [Bool.true_eq_false, if_false] at hy
      by_cases hq : q < s.heap.length
      · rw [List.getElem?_append_left hq] at hy
        exact hs q y hy
      · rw [List.getElem?_append_right (Nat.le_of_not_lt hq)] at hy
        cases hk : q - s.heap.length with
        | zero =>
          simp [hk] at hy
          subst hy
          intro h
          rcases h with h | h <;> cases h
        | succ k => simp [hk] at hy

/-- Every step of the process keeps `State.timersSet`. -/
theorem step_timersSet (s : State) (a : Action) (hs : s.timersSet) : (step s a).timersSet := by
  unfold step
  cases hf : s.fault with
  | some f => exact hs
  | none =>
    cases a with
    | request userId ok now => exact wsHandler.register_timersSet s userId ok now hs
    | ws p now b =>
      cases hp : s.heap[p]? with
      | none => simpa [hp] using hs
      | some x =>
        simpa [hp] using State.commit_timersSet s p _ hs
          (fun eff h => wsHandler.supervisor_keeps_timerSet now b x eff h (hs p x hp))
    | hw p now input w =>
      cases hp : s.heap[p]? with
      | none => simpa [hp] using hs
      | some x =>
        simpa [hp] using State.commit_timersSet s p _ hs
          (fun eff h => handleWebSocket.reader_keeps_timerSet now input w x eff h (hs p x hp))
    | mon p now b w =>
      cases hp : s.heap[p]? with
      | none => simpa [hp] using hs
      | some x =>
        simpa [hp] using State.commit_timersSet s p _ hs
          (fun eff h => sendInactivityNotification.monitor_keeps_timerSet now b w x eff h (hs p x hp))

/-- Every schedule keeps `State.timersSet`. -/
theorem run_timersSet (schedule : List Action) (s : State) (hs : s.timersSet) :
    (run s schedule).timersSet := by
  induction schedule generalizing s with
  | nil => exact hs
  | cons a rest ih => exact ih (step s a) (step_timersSet s a hs)

/-- In every state the process can reach, a session whose `wsHandler` waits in
the `select` has a non-nil `Timer`. -/
theorem reachable_selecting_has_timer (schedule : List Action) (p : Ptr) (x : Session)
    (hx : (run State.init schedule).heap[p]? = some x) (hws : x.ws = .selecting) :
    ∃ tm, x.client.Timer = some tm := by
  have h := run_timersSet schedule State.init (by intro q y hy; simp [State.init] at hy) p x hx
    (Or.inl hws)
  exact Option.ne_none_iff_exists'.mp h

/-- The idle window once the timer exists: in every reachable state, on an open
session whose `wsHandler` waits in its `select` and whose timer has not expired
at `t`, handling a frame received at `t` sets `LastActivity` to `t` and the idle
deadline to `t + 10 s`; with no further frame the `select` blocks (the session
stays open) at every instant before `t + 10 s` and closes the connection through
the timer case at every instant from `t + 10 s` on. -/
theorem message_resets_idle_window (schedule : List Action) (p : Ptr) (x : Session)
    (m : String) (t : Time)
    (hx : (run State.init schedule).heap[p]? = some x)
    (hhw : x.hw = .touch m) (hws : x.ws = .selecting)
    (hlive : ∀ tm, x.client.Timer = some tm → tm.ready t = false)
    (hopen : x.client.Closed = false) (hconn : x.connClosed = false) :
    ∃ e1 e2 e3,
      handleWebSocket.step t .blocked true x = .ok e1 ∧
      handleWebSocket.step t .blocked true e1.sess = .ok e2 ∧
      handleWebSocket.step t .blocked true e2.sess = .ok e3 ∧
      e3.sess.hw = .reading ∧
      e3.sess.client.LastActivity = t ∧
      e3.sess.client.Timer = some { deadline := some (t + 10 * Second), pending := false } ∧
      (∀ t' b, t' < t + 10 * Second →
        wsHandler.step t' b e3.sess = .ok { sess := e3.sess, unregister := none, events := [] } ∧
        handleWebSocket.step t' .blocked true e3.sess =
          .ok { sess := e3.sess, unregister := none, events := [] }) ∧
      (∀ t' b, t + 10 * Second ≤ t' →
        ∃ e4, wsHandler.step t' b e3.sess = .ok e4 ∧ e4.sess.connClosed = true ∧
          e4.sess.ws = .returned ∧ e4.events = [.connClose x.client.Conn] ∧
          e4.unregister = none) := by
  obtain ⟨tm, hT⟩ := reachable_selecting_has_timer schedule p x hx hws
  exact handleWebSocket.resets_idle_window x tm m t hhw hws hT (hlive tm hT) hopen hconn

/-- The scenario of the specification, on a session whose timer exists: a frame
at 9 s moves the deadline to 19 s; at 15 s the `select` blocks and the session is
open, at 19 s the timer case closes the connection. -/
theorem message_resets_idle_window_witness :
    (∃ e : Effect,
      e.sess.client.LastActivity = 9 * Second ∧
      e.sess.client.Timer =
        some { deadline := some (9 * Second + 10 * Second), pending := false } ∧
      wsHandler.step (15 * Second) false e.sess =
        .ok { sess := e.sess, unregister := none, events := [] } ∧
      ∃ e4, wsHandler.step (19 * Second) false e.sess = .ok e4 ∧ e4.sess.connClosed = true) ∧
    (run State.init (frameAtNine ++ [.ws 0 (15 * Second) false])).heap.map
        (fun x => (x.ws, x.connClosed, x.client.LastActivity)) =
      [(.selecting, false, 9 * Second)] ∧
    (run State.init (frameAtNine ++ [.ws 0 (15 * Second) false,
        .ws 0 (19 * Second - 1) false])).heap.map (fun x => (x.ws, x.connClosed)) =
      [(.selecting, false)] ∧
    (run State.init (frameAtNine ++ [.ws 0 (15 * Second) false,
        .ws 0 (19 * Second) false])).heap.map (fun x => (x.ws, x.connClosed)) =
      [(.returned, true)] := by
  refine ⟨?_, by decide, by decide, by decide⟩
  obtain ⟨e1, e2, e3, _, _, _, _, hl, hT, hb, hc⟩ :=
    message_resets_idle_window (connectFive ++ [.hw 0 (9 * Second) (.frame "ping") true]) 0
      { client := { ID := "5", Conn := 0, Closed := false, LastActivity := 0,
                    Timer := some (NewTimer 0 (10 * Second)) }
        connClosed := false, ws := .selecting, hw := .touch "ping", mon := .arming }
      "ping" (9 * Second) (by decide) rfl rfl
      (by
        intro tm h
        cases h
        decide)
      rfl rfl
  obtain ⟨e4, h4, hcl, _⟩ := hc (19 * Second) false (by decide)
  exact ⟨e3, hl, hT, (hb (15 * Second) false (by decide)).1, e4, h4, hcl⟩

/-- C4 at its failing input: the first frame of session "5" is read at 1 µs, after
`go handleWebSocket(client)` and before `wsHandler` has created the timer.
Line 105 sets `LastActivity` to 1 µs, line 106 then dereferences the nil `Timer`:
the process panics, the session has no deadline at `t + 10 s`, and no later step
of `wsHandler` creates one. -/
theorem early_frame_sets_no_deadline :
    (run State.init (earlyFrameTimed.take 4)).heap.map
        (fun x => (x.ws, x.hw, x.client.LastActivity, x.client.Timer)) =
      [(.spawnMonitor, .reset "ping", 1000, none)] ∧
    (run State.init (earlyFrameTimed.take 4)).fault = none ∧
    (run State.init earlyFrameTimed).fault = some .nilDeref ∧
    (run State.init earlyFrameTimed).heap.map
        (fun x => (x.client.LastActivity, x.client.Timer)) = [(1000, none)] ∧
    (run State.init (earlyFrameTimed ++
        [.ws 0 2000 false, .ws 0 2000 false, .ws 0 (15 * Second) false])).heap.map
        (fun x => (x.ws, x.client.Timer)) = [(.spawnMonitor, none)] := by
  decide

/-! ## The inactivity monitor -/

/-- Steps of `sendInactivityNotification` never modify the `Client`: neither
`LastActivity` nor `Timer` nor `Closed`. -/
theorem sendInactivityNotification.step_client (now : Time) (b w : Bool) (x : Session)
    (eff : Effect) (h : sendInactivityNotification.step now b w x = .ok eff) :
    eff.sess.client = x.client ∧ eff.sess.connClosed = x.connClosed ∧
      eff.sess.ws = x.ws ∧ eff.sess.hw = x.hw := by
  unfold sendInactivityNotification.step at h
  repeat' split at h
  all_goals first
    | (cases h; done)
    | (cases h; simp_all)

/-- C9, as stated, fails: at a tick taken 12 s after the last activity the warning
announces closure "in -2 seconds"; the operand is `10 - elapsed`, not its floor
at zero, which would print "0".  At 10.00002 s it reads "-0". -/
theorem warning_remaining_not_floored :
    sendInactivityNotification.tick
        { ID := "5", Conn := 0, Closed := false, LastActivity := 0, Timer := none }
        (Duration.Seconds (Since (12 * Second) 0)) =
      some ("Hi 5,You haven\x27t communicated for 12 seconds. " ++
        "Connection will be closed in -2 seconds.") ∧
    (sendInactivityNotification.remaining (Duration.Seconds (Since (12 * Second) 0))).fmt0 =
      "-2" ∧
    (remainingFloored (Duration.Seconds (Since (12 * Second) 0))).fmt0 = "0" ∧
    sendInactivityNotification.tick
        { ID := "5", Conn := 0, Closed := false, LastActivity := 0, Timer := none }
        (Duration.Seconds (Since 10000020000 0)) =
      some ("Hi 5,You haven\x27t communicated for 10 seconds. " ++
        "Connection will be closed in -0 seconds.") := by
  decide

/-- C9, amended: at a tick of `sendInactivityNotification`, with
`e = time.Since(client.LastActivity).Seconds()`, a warning is written iff
`e >= 2`; it is written on the connection of the client and states `e` and the
remaining time `10 - e` (the `float64` difference), both printed with `%.0f`,
the latter without a floor at zero; the step leaves the `Client` (hence
`LastActivity` and `Timer`) unmodified. -/
theorem sendInactivityNotification_tick_spec (x : Session) (now due : Time)
    (preferTick writeOk : Bool) (hmon : x.mon = .waiting due) (hdue : due ≤ now)
    (hpick : x.client.Closed = false ∨ preferTick = true) :
    ∃ eff, sendInactivityNotification.step now preferTick writeOk x = .ok eff ∧
      eff.sess.client = x.client ∧ eff.unregister = none ∧
      eff.events.filter Event.isWrite =
        if (Duration.Seconds (Since now x.client.LastActivity)).ge (F64.ofInt 2) = true then
          [.connWrite x.client.Conn
            ("Hi " ++ x.client.ID ++ ",You haven\x27t communicated for " ++
              (Duration.Seconds (Since now x.client.LastActivity)).fmt0 ++
              " seconds. Connection will be closed in " ++
              (F64.sub (F64.ofInt 10)
                (Duration.Seconds (Since now x.client.LastActivity))).fmt0 ++
              " seconds.")]
        else [] := by
  have hnc : ¬ (x.client.Closed = true ∧ (preferTick = false ∨ now < due)) := by
    rintro ⟨hc, h⟩
    rcases h with h | h
    · rcases hpick with hp | hp
      · rw [hc] at hp
        cases hp
      · rw [h] at hp
        cases hp
    · exact absurd hdue (Nat.not_le.mpr h)
  unfold sendInactivityNotification.step
  simp only [hmon, if_neg hnc, if_pos hdue]
  by_cases he : (Duration.Seconds (Since now x.client.LastActivity)).ge (F64.ofInt 2) = true
  · have ht : sendInactivityNotification.tick x.client
        (Duration.Seconds (Since now x.client.LastActivity)) =
        some (sendInactivityNotification.warning x.client.ID
          (Duration.Seconds (Since now x.client.LastActivity))) := by
      simp only [sendInactivityNotification.tick, if_pos he]
    simp only [ht, if_pos he]
    by_cases hw : writeOk = true ∧ x.connClosed = false
    · simp only [if_pos hw]
      exact ⟨_, rfl, rfl, rfl, by
        simp [Event.isWrite, sendInactivityNotification.warning,
          sendInactivityNotification.remaining]⟩
    · simp only [if_neg hw]
      exact ⟨_, rfl, rfl, rfl, by
        simp [Event.isWrite, sendInactivityNotification.warning,
          sendInactivityNotification.remaining]⟩
  · have ht : sendInactivityNotification.tick x.client
        (Duration.Seconds (Since now x.client.LastActivity)) = none := by
      simp only [sendInactivityNotification.tick, if_neg he]
    simp only [ht, if_neg he]
    exact ⟨_, rfl, rfl, rfl, rfl⟩

/-- The amended C9 at the first tick of an idle session "5": 2 s idle, 8 s left. -/
theorem sendInactivityNotification_tick_spec_witness :
    ∃ eff, sendInactivityNotification.step (2 * Second) true true
        { client := { ID := "5", Conn := 0, Closed := false, LastActivity := 0,
                      Timer := some (NewTimer 0 (10 * Second)) }
          connClosed := false, ws := .selecting, hw := .reading,
          mon := .waiting (2 * Second) } = .ok eff ∧
      eff.events.filter Event.isWrite =
        [.connWrite 0 ("Hi 5,You haven\x27t communicated for 2 seconds. " ++
          "Connection will be closed in 8 seconds.")] := by
  obtain ⟨eff, h, _, _, hev⟩ := sendInactivityNotification_tick_spec
    { client := { ID := "5", Conn := 0, Closed := false, LastActivity := 0,
                  Timer := some (NewTimer 0 (10 * Second)) }
      connClosed := false, ws := .selecting, hw := .reading, mon := .waiting (2 * Second) }
    (2 * Second) (2 * Second) true true rfl (Nat.le_refl _) (Or.inl rfl)
  refine ⟨eff, h, hev.trans ?_⟩
  decide

/-- The `float64` steps of lines 122 to 124 at a few elapsed times: just below and
at the 2 s threshold, at ties, and at 33554432.500000001 s, where the sum
`float64(sec) + float64(nsec)/1e9` rounds to the tie 33554432.5. -/
theorem Duration.Seconds_examples :
    (Duration.Seconds 1999999999).ge (F64.ofInt 2) = false ∧
    (Duration.Seconds 2000000000).ge (F64.ofInt 2) = true ∧
    (Duration.Seconds 2500000000).fmt0 = "2" ∧
    (F64.sub (F64.ofInt 10) (Duration.Seconds 2500000000)).fmt0 = "8" ∧
    (Duration.Seconds 3500000000).fmt0 = "4" ∧
    (Duration.Seconds 2500000001).fmt0 = "3" ∧
    (Duration.Seconds 33554432500000001).fmt0 = "33554432" ∧
    (F64.sub (F64.ofInt 10) (Duration.Seconds 33554432500000001)).fmt0 = "-33554422" ∧
    (Duration.Seconds (Since (10 ^ 30) 0)).fmt0 = "9223372037" := by
  decide

end SimpleWS
